import Mathlib

/-!
# Verification of the btc-rainbow band-generation core

Shallow embedding of the numerical core of `src/plot.py` (band generation,
date extension, color/label assignment) together with a spec-modelled view of
the input validation that lives in the repository's `data.py` (not present
under `src/`).

Dates are modelled as integers (a day number); one calendar day corresponds
to `+1`.  Prices and fitted values are real numbers, the idealisation of the
floating-point arithmetic performed by numpy.
-/

namespace BtcRainbow

/-- Modelled from the spec: `log_func` is defined in `data.py`, which is not
under `src/`; the spec fixes the fitted model as `f(x) = a*ln(x+b)+c`.
`plot.py` calls it as `log_func(extended_xdata, *popt)`. -/
noncomputable def log_func (x a b c : ℝ) : ℝ := a * Real.log (x + b) + c

/-- The `COLORS_LABELS` constant of `plot.py`, an insertion-ordered dict of
color → label, embedded as the ordered list of its (key, value) pairs. -/
def COLORS_LABELS : List (String × String) :=
  [("#c00200", "Maximum bubble territory"),
   ("#d64018", "Sell. Seriously, SELL!"),
   ("#ed7d31", "FOMO Intensifies"),
   ("#f6b45a", "Is this a bubble?"),
   ("#feeb84", "HODL!"),
   ("#b1d580", "Still cheap"),
   ("#63be7b", "Accumulate"),
   ("#54989f", "BUY!"),
   ("#4472c4", "Fire sale!")]

/-- `BAND_WIDTH = 0.3` from `plot.py`. -/
noncomputable def BAND_WIDTH : ℝ := 0.3

/-- `NUM_BANDS = 9` from `plot.py`. -/
def NUM_BANDS : ℕ := 9

/-- `EXTEND_MONTHS = 9` from `plot.py`. -/
def EXTEND_MONTHS : ℕ := 9

/-- `extend_dates` from `plot.py`: take the maximum date of the series,
produce `months * 30` consecutive days starting the day after it
(`pd.date_range(start=last_date + timedelta(days=1), periods=months*30)`),
and concatenate them after the original dates.  `pandas.Series.max` of an
empty series is `NaN` and the subsequent `date_range` call fails, so the
empty branch is never taken on valid input; we return the input unchanged
there. -/
def extend_dates (dates : List ℤ) (months : ℕ) : List ℤ :=
  match dates.max? with
  | none => dates
  | some last_date =>
      dates ++ (List.range (months * 30)).map fun k : ℕ => last_date + 1 + (k : ℤ)

/-- One rainbow band: the fill color and legend name of the plotly trace,
together with the lower-bound and upper-bound y-value sequences (one entry
per extended date). -/
structure Band where
  fillcolor : String
  name : String
  lower_bound : List ℝ
  upper_bound : List ℝ

instance : Inhabited Band := ⟨⟨"", "", [], []⟩⟩

/-- `extended_xdata = np.arange(1, len(extended_dates) + 1)` from
`plot_rainbow`: the 1-based numeric index over the extended dates. -/
def extended_xdata (n : ℕ) : List ℝ := (List.range n).map fun j : ℕ => (j : ℝ) + 1

/-- `extended_fitted_ydata = log_func(extended_xdata, *popt)` from
`plot_rainbow`. -/
noncomputable def extended_fitted_ydata (a b c : ℝ) (n : ℕ) : List ℝ :=
  (extended_xdata n).map fun x => log_func x a b c

/-- The body of the loop in `plot_rainbow` for index `i`: with
`i_decrease = 1.5`, the band drawn at step `i` has
`lower_bound = exp(ydata + (i - 1.5)*band_width - band_width)`,
`upper_bound = exp(ydata + (i - 1.5)*band_width)`, and takes its color and
label from the reversed `COLORS_LABELS` at position `i`
(`list(COLORS_LABELS.keys())[::-1][i]`). -/
noncomputable def make_band (a b c : ℝ) (n : ℕ) (band_width : ℝ) (i : ℕ) :
    Band :=
  { fillcolor := ((COLORS_LABELS.map Prod.fst).reverse).getD i ""
    name := ((COLORS_LABELS.map Prod.snd).reverse).getD i ""
    lower_bound := (extended_fitted_ydata a b c n).map fun y =>
      Real.exp (y + ((i : ℝ) - 1.5) * band_width - band_width)
    upper_bound := (extended_fitted_ydata a b c n).map fun y =>
      Real.exp (y + ((i : ℝ) - 1.5) * band_width) }

/-- `plot_rainbow` from `plot.py`, restricted to the data it computes: it
extends the dates, evaluates the fitted curve on the 1-based index over the
extended range, and emits one band per `i in range(num_bands)`. -/
noncomputable def plot_rainbow (a b c : ℝ) (dates : List ℤ)
    (num_bands : ℕ) (band_width : ℝ) : List Band :=
  (List.range num_bands).map
    (make_band a b c (extend_dates dates EXTEND_MONTHS).length band_width)

/-- `plot_price` from `plot.py`: the price trace's y-values are the raw
`Value` column, passed through unchanged. -/
def plot_price (values : List ℝ) : List ℝ := values

/-- Modelled from the spec: the 1-based numeric index `x_i = i + 1` used by
the curve fitter in `data.py` (not under `src/`). -/
def fit_xdata (n : ℕ) : List ℝ := (List.range n).map fun j : ℕ => (j : ℝ) + 1

/-- The error raised by the pipeline on invalid input. -/
inductive PipelineError where
  | invalidInput : PipelineError
deriving DecidableEq

/-- Modelled from the spec: the input validation of the curve fitter in
`data.py` (not under `src/`).  The spec: `InvalidInputError` is "raised when
price series is empty, too short to fit, or contains non-positive values",
with "fewer than the minimum points needed for a 3-parameter fit
(practically ≥ 3)" counting as too short; the check happens before the log
transform, so a zero price raises rather than producing `-Infinity`. -/
def validate_series (values : List ℚ) : Except PipelineError Unit :=
  if values = [] ∨ values.length < 3 ∨ ∃ v ∈ values, v ≤ 0 then
    Except.error PipelineError.invalidInput
  else Except.ok ()

/-! ## Helper lemmas (shared; not claim theorems) -/

lemma getD_map_range {α : Type _} (f : ℕ → α) (n x : ℕ) (d : α) (hx : x < n) :
    ((List.range n).map f).getD x d = f x := by
  rw [List.getD_eq_getElem?_getD, List.getElem?_map, List.getElem?_range hx]
  rfl

lemma extend_dates_cons (d0 : ℤ) (ds : List ℤ) (months : ℕ) :
    extend_dates (d0 :: ds) months =
      (d0 :: ds) ++ (List.range (months * 30)).map
        fun k : ℕ => ds.foldl max d0 + 1 + (k : ℤ) := by
  simp [extend_dates, List.max?]

lemma extend_dates_length (d0 : ℤ) (ds : List ℤ) (months : ℕ) :
    (extend_dates (d0 :: ds) months).length = (d0 :: ds).length + months * 30 := by
  rw [extend_dates_cons, List.length_append, List.length_map, List.length_range]

lemma map_getD {α β : Type _} (f : α → β) (l : List α) (x : ℕ)
    (hx : x < l.length) (d : α) (e : β) :
    (l.map f).getD x e = f (l.getD x d) := by
  rw [List.getD_eq_getElem?_getD, List.getElem?_map,
    List.getElem?_eq_getElem hx, List.getD_eq_getElem?_getD,
    List.getElem?_eq_getElem hx]
  rfl

lemma extended_fitted_ydata_length (a b c : ℝ) (n : ℕ) :
    (extended_fitted_ydata a b c n).length = n := by
  rw [extended_fitted_ydata, List.length_map, extended_xdata,
    List.length_map, List.length_range]

lemma extended_fitted_ydata_getD (a b c : ℝ) (n x : ℕ) (hx : x < n) :
    (extended_fitted_ydata a b c n).getD x 0 = log_func ((x : ℝ) + 1) a b c := by
  have h1 : x < (extended_xdata n).length := by
    rw [extended_xdata, List.length_map, List.length_range]; exact hx
  rw [extended_fitted_ydata, map_getD _ _ _ h1 0, extended_xdata,
    getD_map_range _ _ _ _ hx]

lemma plot_rainbow_getD (a b c : ℝ) (dates : List ℤ) (num_bands : ℕ)
    (band_width : ℝ) (i : ℕ) (hi : i < num_bands) :
    (plot_rainbow a b c dates num_bands band_width).getD i default =
      make_band a b c (extend_dates dates EXTEND_MONTHS).length band_width i := by
  rw [plot_rainbow, getD_map_range _ _ _ _ hi]

lemma make_band_upper_getD (a b c : ℝ) (n : ℕ) (band_width : ℝ) (i x : ℕ)
    (hx : x < n) :
    (make_band a b c n band_width i).upper_bound.getD x 0 =
      Real.exp (log_func ((x : ℝ) + 1) a b c + ((i : ℝ) - 1.5) * band_width) := by
  have h1 : x < (extended_fitted_ydata a b c n).length := by
    rw [extended_fitted_ydata_length]; exact hx
  show ((extended_fitted_ydata a b c n).map _).getD x 0 = _
  rw [map_getD _ _ _ h1 0, extended_fitted_ydata_getD a b c n x hx]

lemma make_band_lower_getD (a b c : ℝ) (n : ℕ) (band_width : ℝ) (i x : ℕ)
    (hx : x < n) :
    (make_band a b c n band_width i).lower_bound.getD x 0 =
      Real.exp (log_func ((x : ℝ) + 1) a b c
        + ((i : ℝ) - 1.5) * band_width - band_width) := by
  have h1 : x < (extended_fitted_ydata a b c n).length := by
    rw [extended_fitted_ydata_length]; exact hx
  show ((extended_fitted_ydata a b c n).map _).getD x 0 = _
  rw [map_getD _ _ _ h1 0, extended_fitted_ydata_getD a b c n x hx]

lemma BAND_WIDTH_eq : BAND_WIDTH = 0.3 := rfl

lemma BAND_WIDTH_pos : (0 : ℝ) < BAND_WIDTH := by
  rw [BAND_WIDTH_eq]; norm_num

/-! ## Claim theorems -/

/-- C1: for every fit parameter triple `(a, b, c)`, every extended date
sequence, every band index `i < 9` and every position `x` in the extended
range (0-based position, so 1-based date index `x + 1`), the generated band
satisfies exactly `upperBound(x) = exp(fitted(x+1) + (i - 1.5) * BAND_WIDTH)`
and `lowerBound(x) = exp(fitted(x+1) + (i - 1.5) * BAND_WIDTH - BAND_WIDTH)`
with `fitted(t) = a*ln(t+b)+c` and `BAND_WIDTH = 0.3`. -/
theorem rainbow_band_bounds_formula (a b c : ℝ) (dates : List ℤ) (i x : ℕ)
    (hi : i < NUM_BANDS) (hx : x < (extend_dates dates EXTEND_MONTHS).length) :
    ((plot_rainbow a b c dates NUM_BANDS BAND_WIDTH).getD i
        default).upper_bound.getD x 0
      = Real.exp ((a * Real.log (((x : ℝ) + 1) + b) + c)
          + ((i : ℝ) - 1.5) * BAND_WIDTH) ∧
    ((plot_rainbow a b c dates NUM_BANDS BAND_WIDTH).getD i
        default).lower_bound.getD x 0
      = Real.exp ((a * Real.log (((x : ℝ) + 1) + b) + c)
          + ((i : ℝ) - 1.5) * BAND_WIDTH - BAND_WIDTH) := by
  rw [plot_rainbow_getD a b c dates NUM_BANDS BAND_WIDTH i hi]
  exact ⟨make_band_upper_getD a b c _ BAND_WIDTH i x hx,
    make_band_lower_getD a b c _ BAND_WIDTH i x hx⟩

/-- Witness for C1 at `a = 0`, `b = 1`, `c = 0`, `dates = [0]`, `i = 0`,
`x = 0`. -/
theorem rainbow_band_bounds_formula_witness :
    ((plot_rainbow 0 1 0 [0] NUM_BANDS BAND_WIDTH).getD 0
        default).upper_bound.getD 0 0
      = Real.exp ((0 * Real.log ((((0 : ℕ) : ℝ) + 1) + 1) + 0)
          + (((0 : ℕ) : ℝ) - 1.5) * BAND_WIDTH) :=
  (rainbow_band_bounds_formula 0 1 0 [0] 0 0 (by norm_num [NUM_BANDS])
    (by rw [extend_dates_length]; norm_num)).1

/-- C2: band contiguity — for `0 < i ≤ 8`, band `i`'s lower bound coincides
with band `i - 1`'s upper bound at every shared position. -/
theorem rainbow_band_contiguity (a b c : ℝ) (dates : List ℤ) (i x : ℕ)
    (hi0 : 0 < i) (hi : i ≤ 8)
    (hx : x < (extend_dates dates EXTEND_MONTHS).length) :
    ((plot_rainbow a b c dates NUM_BANDS BAND_WIDTH).getD i
        default).lower_bound.getD x 0
      = ((plot_rainbow a b c dates NUM_BANDS BAND_WIDTH).getD (i - 1)
        default).upper_bound.getD x 0 := by
  have hi9 : i < NUM_BANDS := by rw [NUM_BANDS]; omega
  have hi19 : i - 1 < NUM_BANDS := by rw [NUM_BANDS]; omega
  rw [plot_rainbow_getD a b c dates NUM_BANDS BAND_WIDTH i hi9,
    plot_rainbow_getD a b c dates NUM_BANDS BAND_WIDTH (i - 1) hi19,
    make_band_lower_getD a b c _ BAND_WIDTH i x hx,
    make_band_upper_getD a b c _ BAND_WIDTH (i - 1) x hx]
  have h1 : ((i - 1 : ℕ) : ℝ) = (i : ℝ) - 1 := by
    rw [Nat.cast_sub hi0, Nat.cast_one]
  rw [h1]
  ring_nf

/-- Witness for C2 at `a = 0`, `b = 1`, `c = 0`, `dates = [0]`, `i = 1`,
`x = 0`. -/
theorem rainbow_band_contiguity_witness :
    ((plot_rainbow 0 1 0 [0] NUM_BANDS BAND_WIDTH).getD 1
        default).lower_bound.getD 0 0
      = ((plot_rainbow 0 1 0 [0] NUM_BANDS BAND_WIDTH).getD (1 - 1)
        default).upper_bound.getD 0 0 :=
  rainbow_band_contiguity 0 1 0 [0] 1 0 (by norm_num) (by norm_num)
    (by rw [extend_dates_length]; norm_num)

/-- C3 counterexample: at `(a, b, c) = (0, 1, 0)`, `dates = [0]`, position
`x = 0`, band 0's value is strictly below band 8's, so band 0 does not have
equal-or-greater value than band 8; in the code band 0 is the lowest band,
not the highest. -/
theorem band0_not_ge_band8 :
    ¬ (((plot_rainbow 0 1 0 [0] NUM_BANDS BAND_WIDTH).getD 8
          default).upper_bound.getD 0 0
        ≤ ((plot_rainbow 0 1 0 [0] NUM_BANDS BAND_WIDTH).getD 0
          default).upper_bound.getD 0 0) := by
  have hx : (0 : ℕ) < (extend_dates [0] EXTEND_MONTHS).length := by
    rw [extend_dates_length]; norm_num
  rw [not_le,
    plot_rainbow_getD 0 1 0 [0] NUM_BANDS BAND_WIDTH 8 (by norm_num [NUM_BANDS]),
    plot_rainbow_getD 0 1 0 [0] NUM_BANDS BAND_WIDTH 0 (by norm_num [NUM_BANDS]),
    make_band_upper_getD 0 1 0 _ BAND_WIDTH 8 0 hx,
    make_band_upper_getD 0 1 0 _ BAND_WIDTH 0 0 hx]
  apply Real.exp_lt_exp.mpr
  rw [log_func, BAND_WIDTH_eq]
  norm_num

/-- C3 amended: band `i = 8` has equal-or-greater value (both bounds) than
band `i = 0` at every shared position — the bands are ordered from low
valuation at index 0 to high valuation at index 8. -/
theorem band8_ge_band0 (a b c : ℝ) (dates : List ℤ) (x : ℕ)
    (hx : x < (extend_dates dates EXTEND_MONTHS).length) :
    ((plot_rainbow a b c dates NUM_BANDS BAND_WIDTH).getD 0
        default).upper_bound.getD x 0
      ≤ ((plot_rainbow a b c dates NUM_BANDS BAND_WIDTH).getD 8
        default).upper_bound.getD x 0 ∧
    ((plot_rainbow a b c dates NUM_BANDS BAND_WIDTH).getD 0
        default).lower_bound.getD x 0
      ≤ ((plot_rainbow a b c dates NUM_BANDS BAND_WIDTH).getD 8
        default).lower_bound.getD x 0 := by
  rw [plot_rainbow_getD a b c dates NUM_BANDS BAND_WIDTH 8 (by norm_num [NUM_BANDS]),
    plot_rainbow_getD a b c dates NUM_BANDS BAND_WIDTH 0 (by norm_num [NUM_BANDS]),
    make_band_upper_getD a b c _ BAND_WIDTH 8 x hx,
    make_band_upper_getD a b c _ BAND_WIDTH 0 x hx,
    make_band_lower_getD a b c _ BAND_WIDTH 8 x hx,
    make_band_lower_getD a b c _ BAND_WIDTH 0 x hx]
  constructor <;>
  · apply Real.exp_le_exp.mpr
    rw [BAND_WIDTH_eq]
    norm_num

/-- Witness for the amended C3 at `a = 0`, `b = 1`, `c = 0`, `dates = [0]`,
`x = 0`. -/
theorem band8_ge_band0_witness :
    ((plot_rainbow 0 1 0 [0] NUM_BANDS BAND_WIDTH).getD 0
        default).upper_bound.getD 0 0
      ≤ ((plot_rainbow 0 1 0 [0] NUM_BANDS BAND_WIDTH).getD 8
        default).upper_bound.getD 0 0 :=
  (band8_ge_band0 0 1 0 [0] 0 (by rw [extend_dates_length]; norm_num)).1

/-- C4 counterexample: at `(a, b, c) = (0, 1, 0)`, `dates = [0]`, position
`x = 0`, the log-space distance from the lowest band's lower bound up to the
fitted curve (0.75) differs from the distance from the fitted curve up to
the highest band's upper bound (1.95): the stack is not symmetric around
the fitted curve. -/
theorem band_stack_not_symmetric :
    ¬ (log_func (((0 : ℕ) : ℝ) + 1) 0 1 0
          - Real.log (((plot_rainbow 0 1 0 [0] NUM_BANDS BAND_WIDTH).getD 0
              default).lower_bound.getD 0 0)
        = Real.log (((plot_rainbow 0 1 0 [0] NUM_BANDS BAND_WIDTH).getD 8
              default).upper_bound.getD 0 0)
          - log_func (((0 : ℕ) : ℝ) + 1) 0 1 0) := by
  have hx : (0 : ℕ) < (extend_dates [0] EXTEND_MONTHS).length := by
    rw [extend_dates_length]; norm_num
  rw [plot_rainbow_getD 0 1 0 [0] NUM_BANDS BAND_WIDTH 8 (by norm_num [NUM_BANDS]),
    plot_rainbow_getD 0 1 0 [0] NUM_BANDS BAND_WIDTH 0 (by norm_num [NUM_BANDS]),
    make_band_upper_getD 0 1 0 _ BAND_WIDTH 8 0 hx,
    make_band_lower_getD 0 1 0 _ BAND_WIDTH 0 0 hx,
    Real.log_exp, Real.log_exp, log_func, BAND_WIDTH_eq]
  norm_num

/-- C4 amended: the stack of nine bands is not centered on the fitted curve;
in log-space it extends exactly `2.5 * BAND_WIDTH = 0.75` below the fitted
curve (to the lowest band's lower bound) and `6.5 * BAND_WIDTH = 1.95` above
it (to the highest band's upper bound), a total span of `9 * BAND_WIDTH =
2.7`. -/
theorem band_stack_span (a b c : ℝ) (dates : List ℤ) (x : ℕ)
    (hx : x < (extend_dates dates EXTEND_MONTHS).length) :
    log_func ((x : ℝ) + 1) a b c
        - Real.log (((plot_rainbow a b c dates NUM_BANDS BAND_WIDTH).getD 0
            default).lower_bound.getD x 0)
      = 2.5 * BAND_WIDTH ∧
    Real.log (((plot_rainbow a b c dates NUM_BANDS BAND_WIDTH).getD 8
            default).upper_bound.getD x 0)
        - log_func ((x : ℝ) + 1) a b c
      = 6.5 * BAND_WIDTH := by
  rw [plot_rainbow_getD a b c dates NUM_BANDS BAND_WIDTH 8 (by norm_num [NUM_BANDS]),
    plot_rainbow_getD a b c dates NUM_BANDS BAND_WIDTH 0 (by norm_num [NUM_BANDS]),
    make_band_upper_getD a b c _ BAND_WIDTH 8 x hx,
    make_band_lower_getD a b c _ BAND_WIDTH 0 x hx,
    Real.log_exp, Real.log_exp]
  constructor <;> · rw [BAND_WIDTH_eq]; push_cast; ring_nf

/-- Witness for the amended C4 at `a = 0`, `b = 1`, `c = 0`, `dates = [0]`,
`x = 0`. -/
theorem band_stack_span_witness :
    log_func (((0 : ℕ) : ℝ) + 1) 0 1 0
        - Real.log (((plot_rainbow 0 1 0 [0] NUM_BANDS BAND_WIDTH).getD 0
            default).lower_bound.getD 0 0)
      = 2.5 * BAND_WIDTH :=
  (band_stack_span 0 1 0 [0] 0 (by rw [extend_dates_length]; norm_num)).1

/-- C5 counterexample: the band at index 0 is not assigned the color
`"#c00200"`; the reversed-palette indexing gives it `"#4472c4"`
("Fire sale!") instead. -/
theorem band0_color_not_maximum_bubble :
    ((plot_rainbow 0 1 0 [0] NUM_BANDS BAND_WIDTH).getD 0
        default).fillcolor ≠ "#c00200" := by
  rw [plot_rainbow_getD 0 1 0 [0] NUM_BANDS BAND_WIDTH 0 (by norm_num [NUM_BANDS])]
  show ((COLORS_LABELS.map Prod.fst).reverse).getD 0 "" ≠ "#c00200"
  decide

/-- C5 amended: because the palette is indexed in reverse, the band at index
0 (the lowest band) gets the color `"#4472c4"` with label `"Fire sale!"` and
the band at index 8 (the highest band) gets `"#c00200"` with label
`"Maximum bubble territory"`; the full color/label sequence over band
indices 0..8 is the reverse of the `COLORS_LABELS` table. -/
theorem rainbow_band_colors (a b c : ℝ) (dates : List ℤ) :
    (plot_rainbow a b c dates NUM_BANDS BAND_WIDTH).map
        (fun B => (B.fillcolor, B.name))
      = [("#4472c4", "Fire sale!"),
         ("#54989f", "BUY!"),
         ("#63be7b", "Accumulate"),
         ("#b1d580", "Still cheap"),
         ("#feeb84", "HODL!"),
         ("#f6b45a", "Is this a bubble?"),
         ("#ed7d31", "FOMO Intensifies"),
         ("#d64018", "Sell. Seriously, SELL!"),
         ("#c00200", "Maximum bubble territory")] := by
  rw [plot_rainbow, List.map_map]
  rfl

/-- C6: for a non-empty series, date extension with `months = 9` appends
exactly `9 * 30 = 270` new dates after the original dates (which are kept
as a prefix, unchanged); the appended date at offset `k` is
`last + 1 + k` where `last` is the greatest original date, so the first
appended date is the day after the last original date and consecutive
appended dates differ by exactly one day. -/
theorem extend_dates_appends_270_consecutive_days (d0 : ℤ) (ds : List ℤ) :
    (extend_dates (d0 :: ds) EXTEND_MONTHS).length = (d0 :: ds).length + 270 ∧
    (extend_dates (d0 :: ds) EXTEND_MONTHS).take (d0 :: ds).length = d0 :: ds ∧
    ∀ k : ℕ, k < 270 →
      (extend_dates (d0 :: ds) EXTEND_MONTHS).getD ((d0 :: ds).length + k) 0
        = ds.foldl max d0 + 1 + (k : ℤ) := by
  refine ⟨by rw [extend_dates_length]; norm_num [EXTEND_MONTHS], ?_, ?_⟩
  · rw [extend_dates_cons, List.take_left]
  · intro k hk
    have hk' : k < EXTEND_MONTHS * 30 := by rw [EXTEND_MONTHS]; omega
    rw [extend_dates_cons, List.getD_eq_getElem?_getD,
      List.getElem?_append_right (Nat.le_add_right _ _),
      Nat.add_sub_cancel_left, List.getElem?_map, List.getElem?_range hk']
    rfl

/-- Witness for C6 at `dates = [5]`, `k = 0`. -/
theorem extend_dates_appends_270_consecutive_days_witness :
    (extend_dates [5] EXTEND_MONTHS).length = ([5] : List ℤ).length + 270 ∧
    (0 : ℕ) < 270 ∧
    (extend_dates [5] EXTEND_MONTHS).getD (([5] : List ℤ).length + 0) 0
      = ([] : List ℤ).foldl max 5 + 1 + ((0 : ℕ) : ℤ) :=
  ⟨(extend_dates_appends_270_consecutive_days 5 []).1, by norm_num,
    (extend_dates_appends_270_consecutive_days 5 []).2.2 0 (by norm_num)⟩

/-- C7: the numeric index used during band generation is the 1-based
sequence `1, 2, ..., n + 270` over the concatenated original-plus-extended
dates: its prefix over the original `n` dates equals the 1-based index used
during fitting, and the extended part continues it seamlessly (the value at
0-based position `x` is `x + 1` throughout) rather than restarting at 1. -/
theorem extended_index_continues_fit_index (d0 : ℤ) (ds : List ℤ) :
    extended_xdata (extend_dates (d0 :: ds) EXTEND_MONTHS).length
        = fit_xdata ((d0 :: ds).length + 270) ∧
    (extended_xdata (extend_dates (d0 :: ds) EXTEND_MONTHS).length).take
        (d0 :: ds).length
      = fit_xdata (d0 :: ds).length ∧
    ∀ x : ℕ, x < (d0 :: ds).length + 270 →
      (extended_xdata (extend_dates (d0 :: ds) EXTEND_MONTHS).length).getD x 0
        = (x : ℝ) + 1 := by
  have hlen : (extend_dates (d0 :: ds) EXTEND_MONTHS).length
      = (d0 :: ds).length + 270 := by rw [extend_dates_length]; norm_num [EXTEND_MONTHS]
  refine ⟨by rw [hlen]; rfl, ?_, ?_⟩
  · rw [hlen, extended_xdata, fit_xdata, ← List.map_take, List.take_range,
      Nat.min_eq_left (Nat.le_add_right _ _)]
  · intro x hx
    rw [hlen, extended_xdata, getD_map_range _ _ _ _ hx]

/-- Witness for C7 at `dates = [5]`, `x = 0`. -/
theorem extended_index_continues_fit_index_witness :
    (0 : ℕ) < ([5] : List ℤ).length + 270 ∧
    (extended_xdata (extend_dates [5] EXTEND_MONTHS).length).getD 0 0
      = ((0 : ℕ) : ℝ) + 1 :=
  ⟨by norm_num, (extended_index_continues_fit_index 5 []).2.2 0 (by norm_num)⟩

/-- C8: for every non-empty input series and fit parameters, band
generation returns exactly 9 bands, and each band's lower-bound and
upper-bound sequences have one value for each of the `n + 270` extended
dates. -/
theorem generate_bands_count_and_coverage (a b c band_width : ℝ)
    (d0 : ℤ) (ds : List ℤ) :
    (plot_rainbow a b c (d0 :: ds) NUM_BANDS band_width).length = 9 ∧
    ∀ B ∈ plot_rainbow a b c (d0 :: ds) NUM_BANDS band_width,
      B.lower_bound.length = (d0 :: ds).length + 270 ∧
      B.upper_bound.length = (d0 :: ds).length + 270 := by
  constructor
  · rw [plot_rainbow, List.length_map, List.length_range, NUM_BANDS]
  · intro B hB
    rw [plot_rainbow] at hB
    obtain ⟨i, _, rfl⟩ := List.mem_map.mp hB
    have hl : (extend_dates (d0 :: ds) EXTEND_MONTHS).length
        = (d0 :: ds).length + 270 := by
      rw [extend_dates_length]; norm_num [EXTEND_MONTHS]
    constructor
    · show ((extended_fitted_ydata a b c _).map _).length = _
      rw [List.length_map, extended_fitted_ydata_length, hl]
    · show ((extended_fitted_ydata a b c _).map _).length = _
      rw [List.length_map, extended_fitted_ydata_length, hl]

/-- Witness for C8 at `a = 0`, `b = 1`, `c = 0`, `dates = [0]`, applied to
the first generated band. -/
theorem generate_bands_count_and_coverage_witness :
    (plot_rainbow 0 1 0 [0] NUM_BANDS BAND_WIDTH).length = 9 ∧
    (make_band 0 1 0 (extend_dates [0] EXTEND_MONTHS).length BAND_WIDTH
        0).lower_bound.length = ([0] : List ℤ).length + 270 :=
  ⟨(generate_bands_count_and_coverage 0 1 0 BAND_WIDTH 0 []).1,
    ((generate_bands_count_and_coverage 0 1 0 BAND_WIDTH 0 []).2
      (make_band 0 1 0 (extend_dates [0] EXTEND_MONTHS).length BAND_WIDTH 0)
      (List.mem_map_of_mem _ (List.mem_range.mpr (by norm_num [NUM_BANDS])))).1⟩

/-- C9: the pipeline raises `InvalidInputError` exactly when the price
series is empty, too short to fit the 3-parameter model, or contains a
value `≤ 0`; in particular a series containing the value `0` raises the
error (the check precedes the log transform). -/
theorem invalid_input_exactly_on_bad_series (values : List ℚ) :
    (validate_series values = Except.error PipelineError.invalidInput
      ↔ values = [] ∨ values.length < 3 ∨ ∃ v ∈ values, v ≤ 0) ∧
    ((0 : ℚ) ∈ values →
      validate_series values = Except.error PipelineError.invalidInput) := by
  have hmain : validate_series values = Except.error PipelineError.invalidInput
      ↔ values = [] ∨ values.length < 3 ∨ ∃ v ∈ values, v ≤ 0 := by
    rw [validate_series]
    split
    · rename_i h; simp [h]
    · rename_i h; simp [h]
  exact ⟨hmain, fun h0 => hmain.mpr (Or.inr (Or.inr ⟨0, h0, le_refl 0⟩))⟩

/-- Witness for C9: the series `[0, 1, 2]` contains a zero price and is
rejected with `InvalidInputError`. -/
theorem invalid_input_exactly_on_bad_series_witness :
    (0 : ℚ) ∈ ([0, 1, 2] : List ℚ) ∧
    validate_series [0, 1, 2] = Except.error PipelineError.invalidInput :=
  ⟨by decide, (invalid_input_exactly_on_bad_series [0, 1, 2]).2 (by decide)⟩

/-- C10: for every fit parameter triple (all fitted values are finite reals
in this model), every band index `i < 9` and every position `x` of the
extended range, the generated bounds are strictly positive and each band's
lower bound lies strictly below its upper bound (the bands have positive
log-width `BAND_WIDTH = 0.3`). -/
theorem band_bounds_positive_and_ordered (a b c : ℝ) (dates : List ℤ)
    (i x : ℕ) (hi : i < NUM_BANDS)
    (hx : x < (extend_dates dates EXTEND_MONTHS).length) :
    0 < ((plot_rainbow a b c dates NUM_BANDS BAND_WIDTH).getD i
        default).lower_bound.getD x 0 ∧
    ((plot_rainbow a b c dates NUM_BANDS BAND_WIDTH).getD i
        default).lower_bound.getD x 0
      < ((plot_rainbow a b c dates NUM_BANDS BAND_WIDTH).getD i
        default).upper_bound.getD x 0 := by
  rw [plot_rainbow_getD a b c dates NUM_BANDS BAND_WIDTH i hi,
    make_band_lower_getD a b c _ BAND_WIDTH i x hx,
    make_band_upper_getD a b c _ BAND_WIDTH i x hx]
  exact ⟨Real.exp_pos _,
    Real.exp_lt_exp.mpr (sub_lt_self _ BAND_WIDTH_pos)⟩

/-- Witness for C10 at `a = 0`, `b = 1`, `c = 0`, `dates = [0]`, `i = 0`,
`x = 0`. -/
theorem band_bounds_positive_and_ordered_witness :
    0 < ((plot_rainbow 0 1 0 [0] NUM_BANDS BAND_WIDTH).getD 0
        default).lower_bound.getD 0 0 :=
  (band_bounds_positive_and_ordered 0 1 0 [0] 0 0 (by norm_num [NUM_BANDS])
    (by rw [extend_dates_length]; norm_num)).1

end BtcRainbow
